import Mathlib

/-!
Verification development for the PHP tracing tool (src/php_tool.py).

The development shallowly embeds two layers of the program:

* the userspace correlation and aggregation engine: the `Process` record,
  the rendering helpers `print_event` and `syscall_message`, and the
  perf-buffer callback `Callback.__call__`, modelled as a pure step
  function on an explicit engine state;
* the generated eBPF probe handlers: the PHP user-function probe
  (template `PHP_TRACE_TEMPLATE`, instantiated twice by `PHPEvents.probe`
  for entry and return) and the syscall tracepoint handlers
  (template `SYS_TRACE_TEMPLATE`), modelled as pure functions on the
  BPF hash-map state, with 64-bit arithmetic made explicit.

Python integers are unbounded, so userspace counters are plain `Nat`;
the eBPF side uses `u64` arithmetic, modelled with explicit `% 2 ^ 64`.
-/

/-! ## Constants from the source (module-level globals) -/

def SYSCALL : Nat := 1

def DISK : Nat := 3

def NET : Nat := 4

def PADDING : String := "  "

def BLUE : String := "\x1B[95m"

def UNDERLINE : String := "\x1B[4m"

def ENDC : String := "\x1B[0m"

/-- The u64 modulus used by the eBPF side. -/
def U64 : Nat := 2 ^ 64

/-! ## The event record

Mirrors the ctypes `CallEvent` structure (`depth`, `pid`, `lat`, `type`,
`fd_type`, `fdw`, `fdr`, `fd_ret`, `bytes_write`, `bytes_read`, `addr`,
`clazz`, `method`, `file`).  The three text fields arrive as bytes and are
decoded with errors replaced; we model them directly as the decoded
strings.  Defaults are only a convenience for writing concrete events. -/

structure CallEvent where
  depth : Nat := 0
  pid : Nat := 0
  lat : Nat := 0
  type : Nat := 0
  fd_type : Nat := 0
  fdw : Nat := 0
  fdr : Nat := 0
  fd_ret : Nat := 0
  bytes_write : Nat := 0
  bytes_read : Nat := 0
  addr : Nat := 0
  clazz : String := ""
  method : String := ""
  file : String := ""
deriving Repr, DecidableEq

/-- Python `event.depth & (~(1 << 63))`: clear bit 63, keep everything else. -/
def maskDepth (d : Nat) : Nat :=
  if d.testBit 63 then d - 2 ^ 63 else d

/-! ## Rendering helpers -/

/-- `s * n` for strings, as in Python (`PADDING * (depth - 1)`). -/
def strRepeat (s : String) (n : Nat) : String :=
  String.join (List.replicate n s)

/-- Python `"%-*s"`: left justify to a width, never truncating. -/
def ljust (s : String) (w : Nat) : String :=
  s ++ strRepeat " " (w - s.length)

/-- `print_event(pid, lat, message, depth)`:
`"%-6d %-10s %-40s" % (pid, str(lat), (PADDING * (depth - 1)) + message)`.
Callers that pass an integer latency are modelled by passing `toString`
of it, matching `str(lat)`. -/
def print_event (pid : Nat) (lat : String) (message : String) (depth : Nat) : String :=
  ljust (toString pid) 6 ++ " " ++ ljust lat 10 ++ " " ++
    ljust (strRepeat PADDING (depth - 1) ++ message) 40

/-- Outcomes of `socket.gethostbyaddr`, the only external call made during
rendering.  `herror` is a host-lookup error, `gaierror` an address-info
error. -/
inductive ResolveErr where
  | herror : ResolveErr
  | gaierror : ResolveErr
deriving Repr, DecidableEq

/-- `str(ipaddress.ip_address(n))` for an IPv4 quantity followed by the
octet reversal `'.'.join(addr.split('.')[::-1])` performed by
`syscall_message`. -/
def addrDisplay (n : Nat) : String :=
  toString (n % 256) ++ "." ++ toString (n / 2 ^ 8 % 256) ++ "." ++
    toString (n / 2 ^ 16 % 256) ++ "." ++ toString (n / 2 ^ 24 % 256)

/-- `syscall_message(event)`.  The name resolver stands for
`socket.gethostbyaddr`.  The source guards it with
`except socket.herror or socket.gaierror:`, and in Python that `or`
expression evaluates to its first truthy operand, so only
`socket.herror` is actually caught; a `socket.gaierror` propagates out of
the function, which the `Except` result records. -/
def syscall_message (resolve : String → Except ResolveErr String)
    (event : CallEvent) : Except ResolveErr String :=
  let m := "sys." ++ BLUE ++ event.method ++ ENDC
  let m := if event.fdw > 0 then m ++ " write on fd: " ++ toString event.fdw else m
  let m := if event.fdr > 0 then m ++ " read fd: " ++ toString event.fdr else m
  let m := if event.fd_ret > 0 then m ++ " return fd: " ++ toString event.fd_ret else m
  if event.addr > 0 then
    let a := addrDisplay event.addr
    let m := m ++ " connect to: " ++ a
    match resolve a with
    | Except.ok host => Except.ok (m ++ " -> " ++ host)
    | Except.error ResolveErr.herror => Except.ok m
    | Except.error ResolveErr.gaierror => Except.error ResolveErr.gaierror
  else
    Except.ok m

/-! ## The per-process record (`class Process`)

The buffered `io.StringIO` receives whole lines (`add_in_buffer` writes
`data + '\n'`), so the buffer is modelled as the list of buffered lines.
The class attributes all start at zero. -/

structure Process where
  total_lat : Nat := 0
  total_net_time : Nat := 0
  total_disk_time : Nat := 0
  net_write_volume : Nat := 0
  disk_write_volume : Nat := 0
  net_read_volume : Nat := 0
  disk_read_volume : Nat := 0
  /-- Instance attribute first created by `reset` (the source assigns
  `self.total_net_lat`, a name distinct from `total_net_time`). -/
  total_net_lat : Option Nat := none
  /-- Instance attribute first created by `reset` (the source assigns
  `self.total_disk_lat`, a name distinct from `total_disk_time`). -/
  total_disk_lat : Option Nat := none
  data_buffer : List String := []
deriving Repr, DecidableEq

def Process.init : Process := {}

/-- `Process.reset`, exactly as written in the source: it zeroes
`total_lat` and the four byte volumes, and assigns the (otherwise unused)
attributes `total_net_lat` and `total_disk_lat`; it does not touch
`total_net_time` or `total_disk_time`. -/
def Process.reset (p : Process) : Process :=
  { p with
    total_lat := 0
    total_net_lat := some 0
    total_disk_lat := some 0
    net_write_volume := 0
    disk_write_volume := 0
    net_read_volume := 0
    disk_read_volume := 0 }

/-- `Process.add_in_buffer`. -/
def Process.add_in_buffer (p : Process) (line : String) : Process :=
  { p with data_buffer := p.data_buffer ++ [line] }

/-! ## Dictionary operations

`Callback.process_dict` is a `defaultdict` keyed by `str(event.pid)`;
since `str` is injective on the numeric pids, the key is modelled as the
pid itself.  The maps are association lists with the usual operations. -/

def dlookup {β : Type} : List (Nat × β) → Nat → Option β
  | [], _ => none
  | (a, b) :: t, k => if a = k then some b else dlookup t k

def dset {β : Type} : List (Nat × β) → Nat → β → List (Nat × β)
  | [], k, v => [(k, v)]
  | (a, b) :: t, k, v => if a = k then (k, v) :: t else (a, b) :: dset t k v

def derase {β : Type} : List (Nat × β) → Nat → List (Nat × β)
  | [], _ => []
  | (a, b) :: t, k => if a = k then derase t k else (a, b) :: derase t k

/-! ## The perf-buffer callback (`Callback.__call__`) -/

/-- The parsed command line; only the syscall-detail flag `-S` reaches
the callback. -/
structure Args where
  syscalls : Bool
deriving Repr, DecidableEq

/-- The mutable state surrounding the callback: the process registry, the
sequence of flushed batches (one entry per `print(process.get_buffer())`
call, each the list of lines it emitted), and whether `exit()` ran. -/
structure EngineState where
  process_dict : List (Nat × Process) := []
  out : List (List String) := []
  exited : Bool := false
deriving Repr, DecidableEq

/-- The syscall accumulation block of `Callback.__call__` (the running
totals update that precedes the `-S` gate). -/
def syscallAccumulate (e : CallEvent) (p : Process) : Process :=
  let p := { p with total_lat := p.total_lat + e.lat }
  if e.fd_type = NET then
    let p := { p with total_net_time := p.total_net_time + e.lat }
    if e.bytes_write > 0 then
      { p with net_write_volume := p.net_write_volume + e.bytes_write }
    else if e.bytes_read > 0 then
      { p with net_read_volume := p.net_read_volume + e.bytes_read }
    else p
  else if e.fd_type = DISK then
    let p := { p with total_disk_time := p.total_disk_time + e.lat }
    if e.bytes_write > 0 then
      { p with disk_write_volume := p.disk_write_volume + e.bytes_write }
    else if e.bytes_read > 0 then
      { p with disk_read_volume := p.disk_read_volume + e.bytes_read }
    else p
  else p

/-- The up-to-three summary lines buffered on a function return (the
source emits each under its own positivity test; the `if SYSCALLS:` guard
around the block is always true because `SYSCALLS` is the non-empty
module-level list of syscall names). -/
def summaryLines (pid32 : Nat) (p : Process) (depth : Nat) : List String :=
  (if p.total_lat > 0 then
    [print_event pid32 (toString p.total_lat)
      (BLUE ++ "traced syscalls total latence" ++ ENDC) depth]
  else []) ++
  (if p.total_net_time > 0 then
    [print_event pid32 (toString p.total_net_time)
      (BLUE ++ "sys time spent on the network |-> " ++ toString p.net_write_volume ++
        " bytes written, " ++ toString p.net_read_volume ++ " bytes read" ++ ENDC) depth]
  else []) ++
  (if p.total_disk_time > 0 then
    [print_event pid32 (toString p.total_disk_time)
      (BLUE ++ "sys time spent on the disk |-> " ++ toString p.disk_write_volume ++
        " bytes written, " ++ toString p.disk_read_volume ++ " bytes read" ++ ENDC) depth]
  else [])

/-- The rendered user-function line: latency column `str(event.lat)` when
positive, otherwise the placeholder `"-"`, and the joined message. -/
def functionLine (pid32 : Nat) (e : CallEvent) (direction : String) (depth : Nat) : String :=
  print_event pid32 (if e.lat > 0 then toString e.lat else "-")
    (direction ++ e.clazz ++ "." ++ e.method ++ " " ++ UNDERLINE ++ "from " ++ e.file ++ ENDC)
    depth

/-- The syscall branch of the callback: accumulate, then return early
unless `-S` was given, otherwise render (which may raise out of
`syscall_message`) and buffer the detail line.  No flush happens here. -/
def syscallBranch (args : Args) (resolve : String → Except ResolveErr String)
    (e : CallEvent) (depth : Nat) (st : EngineState)
    (dict0 : List (Nat × Process)) (p : Process) : Except ResolveErr EngineState :=
  let p := syscallAccumulate e p
  if !args.syscalls then
    Except.ok { st with process_dict := dset dict0 e.pid p }
  else
    match syscall_message resolve e with
    | Except.error err => Except.error err
    | Except.ok msg =>
        let p := p.add_in_buffer (print_event (e.pid >>> 32) (toString e.lat) msg depth)
        Except.ok { st with process_dict := dset dict0 e.pid p }

/-- The user-function branch of the callback: on a return, buffer the
summary lines and reset the totals; buffer the function line; flush the
buffer; on the root `main` return, flush again (the buffer is already
empty), delete the record, and call `exit()` when the registry became
empty. -/
def funcBranch (e : CallEvent) (depth : Nat) (st : EngineState)
    (dict0 : List (Nat × Process)) (p : Process) : EngineState :=
  let p1 := if e.depth.testBit 63 then
      Process.reset { p with data_buffer := p.data_buffer ++ summaryLines (e.pid >>> 32) p depth }
    else p
  let p2 := p1.add_in_buffer
    (functionLine (e.pid >>> 32) e (if e.depth.testBit 63 then "<- " else "-> ") depth)
  let st1 : EngineState :=
    { st with
      process_dict := dset dict0 e.pid { p2 with data_buffer := [] }
      out := st.out ++ [p2.data_buffer] }
  if e.depth.testBit 63 = true ∧ e.method = "main" ∧ depth = 1 then
    let dict2 := derase st1.process_dict e.pid
    { st1 with
      process_dict := dict2
      out := st1.out ++ [[]]
      exited := st1.exited || dict2.isEmpty }
  else st1

/-- One invocation of `Callback.__call__` on a decoded event.  Discards
events whose masked depth is zero, performs the `defaultdict` access
(which creates the entry), and dispatches on `event.type`. -/
def Callback.step (args : Args) (resolve : String → Except ResolveErr String)
    (st : EngineState) (e : CallEvent) : Except ResolveErr EngineState :=
  let depth := maskDepth e.depth
  if depth = 0 then Except.ok st
  else
    let p := (dlookup st.process_dict e.pid).getD Process.init
    let dict0 := dset st.process_dict e.pid p
    if e.type = SYSCALL then syscallBranch args resolve e depth st dict0 p
    else Except.ok (funcBranch e depth st dict0 p)

/-- The callback applied to a whole event stream, stopping at the first
uncaught exception. -/
def Callback.run (args : Args) (resolve : String → Except ResolveErr String)
    (st : EngineState) : List CallEvent → Except ResolveErr EngineState
  | [] => Except.ok st
  | e :: es =>
    match Callback.step args resolve st e with
    | Except.ok st1 => Callback.run args resolve st1 es
    | Except.error err => Except.error err

/-! ## The generated eBPF probe handlers

The BPF hash maps declared by the program template: `entry` maps the
thread identity to its current user-function depth, `start_func` maps a
call-site identity to the entry timestamp, `start` maps the thread
identity to the syscall entry timestamp.  (The `fd`, `addr` and
`filedescriptors` maps feed only the ancillary data fields of the
submitted event and are not needed by the claims below.) -/

structure BpfState where
  entry : List (Nat × Nat) := []
  start_func : List (Nat × Nat) := []
  start : List (Nat × Nat) := []
deriving Repr, DecidableEq

/-- u64 addition. -/
def u64add (a b : Nat) : Nat := (a + b) % U64

/-- u64 subtraction (`bpf_ktime_get_ns() - *start_ns`). -/
def u64sub (a b : Nat) : Nat := (U64 + a % U64 - b % U64) % U64

/-- The fields of the submitted `struct call_t` that the claims consult
(the text payloads are verbatim `bpf_probe_read` copies of the inputs). -/
structure CallT where
  depth : Nat
  pid : Nat
  lat : Nat
  type : Nat
deriving Repr, DecidableEq

/-- One firing of a PHP USDT probe: the thread identity
(`bpf_get_current_pid_tgid()`), the three pointer values read by
`bpf_usdt_readarg` for class, method and file, and the clock value a
`bpf_ktime_get_ns()` call would return during this firing. -/
structure PhpCall where
  pid : Nat
  clazz : Nat
  method : Nat
  file : Nat
  now : Nat
deriving Repr, DecidableEq

/-- `u64 id = clazz + method + file;` (u64 arithmetic). -/
def callSiteId (c : PhpCall) : Nat := u64add (u64add c.clazz c.method) c.file

/-- The handler generated from `PHP_TRACE_TEMPLATE` by `PHPEvents.probe`.
For the entry instantiation the substitutions are
`data.depth = *depth + 1` and `++(*depth)`; for the return instantiation
they are `data.depth = *depth | (1ULL << 63)` and
`if (*depth) --(*depth)`.  `entry.lookup_or_init` inserts zero when the
thread has no depth yet.  On the direction check: an entry stores the
timestamp under the call-site id; a return looks the id up, and when it
is found computes the latency and then deletes under the key `method`
(the source passes `&method`, not `&id`, to `start_func.delete`); when
it is missing the zero-latency event is submitted as is and the (absent)
id key is deleted.  The result is the new map state and the list of
events submitted via `calls.perf_submit`. -/
def php_probe (isReturn : Bool) (st : BpfState) (c : PhpCall) : BpfState × List CallT :=
  let id := callSiteId c
  let depth0 := (dlookup st.entry c.pid).getD 0
  let entry0 := dset st.entry c.pid depth0
  let dataDepth := if isReturn then depth0 ||| 2 ^ 63 else u64add depth0 1
  let newDepth := if isReturn then (if depth0 ≠ 0 then depth0 - 1 else depth0) else u64add depth0 1
  let st := { st with entry := dset entry0 c.pid newDepth }
  if !(dataDepth.testBit 63) then
    ({ st with start_func := dset st.start_func id c.now },
     [{ depth := dataDepth, pid := c.pid, lat := 0, type := 2 }])
  else
    match dlookup st.start_func id with
    | none =>
        ({ st with start_func := derase st.start_func id },
         [{ depth := dataDepth, pid := c.pid, lat := 0, type := 2 }])
    | some t0 =>
        ({ st with start_func := derase st.start_func c.method },
         [{ depth := dataDepth, pid := c.pid, lat := u64sub c.now t0, type := 2 }])

/-- One firing of a syscall tracepoint, after the pid-namespace filter of
`SYS_TRACE_TEMPLATE` has admitted it. -/
structure SysFire where
  pid : Nat
  now : Nat
deriving Repr, DecidableEq

/-- `sys_enter_<name>`: record the entry timestamp under the thread
identity.  (The per-syscall `{syscall_enter_logic}` plugins only stash
handle numbers or addresses in the `fd` and `addr` maps; they do not
touch `start`.) -/
def sys_enter (st : BpfState) (c : SysFire) : BpfState :=
  { st with start := dset st.start c.pid c.now }

/-- `sys_exit_<name>`: read the current depth (`lookup_or_init` with
zero), look up the entry timestamp under the thread identity, and submit
either the zero-latency event (timestamp missing) or the event whose
latency is the clock difference.  The `start` entry is not deleted, and
the `{syscall_exit_logic}` plugins only fill the handle, byte-count and
address fields. -/
def sys_exit (st : BpfState) (c : SysFire) : BpfState × List CallT :=
  let depth0 := (dlookup st.entry c.pid).getD 0
  let st := { st with entry := dset st.entry c.pid depth0 }
  match dlookup st.start c.pid with
  | none => (st, [{ depth := depth0, pid := c.pid, lat := 0, type := 1 }])
  | some t0 => (st, [{ depth := depth0, pid := c.pid, lat := u64sub c.now t0, type := 1 }])

/-! ## Map lemmas -/

theorem dlookup_dset_self {β : Type} (d : List (Nat × β)) (k : Nat) (v : β) :
    dlookup (dset d k v) k = some v := by
  induction d with
  | nil => simp [dset, dlookup]
  | cons hd t ih =>
      obtain ⟨a, b⟩ := hd
      by_cases h : a = k <;> simp [dset, dlookup, h, ih]

theorem dlookup_dset_ne {β : Type} (d : List (Nat × β)) (k k' : Nat) (v : β)
    (h : k ≠ k') : dlookup (dset d k v) k' = dlookup d k' := by
  induction d with
  | nil => simp [dset, dlookup, h]
  | cons hd t ih =>
      obtain ⟨a, b⟩ := hd
      by_cases ha : a = k
      · subst ha
        simp [dset, dlookup, h, ih]
      · simp only [dset, if_neg ha, dlookup]
        by_cases ha' : a = k' <;> simp [ha', ih]

theorem dlookup_derase_self {β : Type} (d : List (Nat × β)) (k : Nat) :
    dlookup (derase d k) k = none := by
  induction d with
  | nil => simp [derase, dlookup]
  | cons hd t ih =>
      obtain ⟨a, b⟩ := hd
      by_cases h : a = k <;> simp [derase, dlookup, h, ih]

theorem dlookup_derase_ne {β : Type} (d : List (Nat × β)) (k k' : Nat)
    (h : k ≠ k') : dlookup (derase d k) k' = dlookup d k' := by
  induction d with
  | nil => simp [derase, dlookup]
  | cons hd t ih =>
      obtain ⟨a, b⟩ := hd
      by_cases ha : a = k
      · subst ha
        simp [derase, dlookup, (by exact h : a ≠ k'), ih]
      · simp only [derase, if_neg ha, dlookup]
        by_cases ha' : a = k' <;> simp [ha', ih]

theorem derase_dset {β : Type} (d : List (Nat × β)) (k : Nat) (v : β) :
    derase (dset d k v) k = derase d k := by
  induction d with
  | nil => simp [dset, derase]
  | cons hd t ih =>
      obtain ⟨a, b⟩ := hd
      by_cases h : a = k <;> simp [dset, derase, h, ih]

/-- u64 subtraction is exact when no wrap occurs. -/
theorem u64sub_eq (a b : Nat) (hle : b ≤ a) (ha : a < U64) :
    u64sub a b = a - b := by
  have hb : b < U64 := lt_of_le_of_lt hle ha
  unfold u64sub
  rw [Nat.mod_eq_of_lt ha, Nat.mod_eq_of_lt hb, Nat.add_sub_assoc hle,
    Nat.add_mod_left, Nat.mod_eq_of_lt (lt_of_le_of_lt (Nat.sub_le a b) ha)]

/-! ## Small structural lemmas about the callback -/

theorem syscallAccumulate_total_lat (e : CallEvent) (p : Process) :
    (syscallAccumulate e p).total_lat = p.total_lat + e.lat := by
  unfold syscallAccumulate
  dsimp only
  split_ifs <;> rfl

theorem add_in_buffer_total_lat (p : Process) (s : String) :
    (p.add_in_buffer s).total_lat = p.total_lat := rfl

/-! ## Shared concrete material for the claim theorems -/

/-- A resolver that always fails with the catchable host-lookup error. -/
def herrResolver : String → Except ResolveErr String :=
  fun _ => Except.error ResolveErr.herror

/-- A network `read`-style syscall event: 5 ns latency, 7 bytes written
on a network descriptor, for the process whose packed identity has
tgid 1. -/
def netSysEvent : CallEvent :=
  { pid := 2 ^ 32, depth := 2, type := 1, fd_type := 4, lat := 5,
    bytes_write := 7, method := "read" }

/-- A non-root user-function return event (direction bit set, masked
depth 2) for the same process. -/
def fooRetEvent : CallEvent :=
  { pid := 2 ^ 32, depth := 2 ^ 63 + 2, type := 2, method := "foo",
    clazz := "A", file := "f" }

/-! ## C1 -/

/-- C1: resetting the totals on a user-function return is NOT idempotent
in the code.  After a network syscall (5 ns, 7 bytes written) and a
first return that reports and resets, the code leaves
`total_net_time = 5` (the source `reset` assigns the misspelled
attributes `total_net_lat` and `total_disk_lat` instead of
`total_net_time` and `total_disk_time`), so a second consecutive return
with no intervening syscall buffers the network summary line again: the
two return flushes have 3 and 2 lines, where the claim predicts 3 and 1
(the second being only the function line). -/
theorem c1_reset_not_idempotent :
    ((Callback.run ⟨false⟩ herrResolver {}
        [netSysEvent, fooRetEvent, fooRetEvent]).toOption.map
      (fun s => s.out.map List.length) = some [3, 2]) ∧
    ((Callback.run ⟨false⟩ herrResolver {} [netSysEvent, fooRetEvent]).toOption.map
      (fun s => (dlookup s.process_dict (2 ^ 32)).map
        (fun p => (p.total_lat, p.total_net_time))) = some (some (0, 5))) := by
  constructor <;> rfl

/-! ## C2 -/

/-- C2: a matched user-function exit does NOT remove the pending start
timestamp under the call-site identity key.  With class, method and file
pointer values 1, 2 and 3, the entry parks the timestamp under
`id = 6`; the matching return finds it (computing latency
150 - 100 = 50) but then executes `start_func.delete(&method)`, deleting
under key 2, so the pending entry under key 6 survives the matched
exit, violating the claimed iff invariant. -/
theorem c2_matched_exit_leaves_pending_entry :
    (dlookup (php_probe false {} ⟨7, 1, 2, 3, 100⟩).1.start_func 6 = some 100) ∧
    ((php_probe true (php_probe false {} ⟨7, 1, 2, 3, 100⟩).1 ⟨7, 1, 2, 3, 150⟩).2.map
        CallT.lat = [50]) ∧
    (dlookup (php_probe true (php_probe false {} ⟨7, 1, 2, 3, 100⟩).1
        ⟨7, 1, 2, 3, 150⟩).1.start_func 6 = some 100) := by
  refine ⟨rfl, ?_, rfl⟩
  rfl

/-! ## C8 -/

/-- A `connect` syscall event with a captured destination address
(127.0.0.1 as the little-endian u64 read from `sin_addr`). -/
def connectEvent : CallEvent :=
  { pid := 1, depth := 1, type := 1, lat := 10, method := "connect",
    fdw := 3, addr := 2130706433 }

/-- C8: rendering is robust against a host-lookup error but NOT against
an address-info error.  The source handler `except socket.herror or
socket.gaierror:` catches only `socket.herror` (the `or` of two
exception classes evaluates to the first), so a `gaierror` from the
resolver propagates out of `syscall_message` and aborts the callback,
while the claim says both failures are ignored and rendering never
raises.  The dotted address (octets reversed by the source) does appear
when the error is caught. -/
theorem c8_gaierror_escapes_rendering :
    (syscall_message (fun _ => Except.error ResolveErr.gaierror) connectEvent =
      Except.error ResolveErr.gaierror) ∧
    (syscall_message herrResolver connectEvent =
      Except.ok ("sys." ++ BLUE ++ "connect" ++ ENDC ++ " write on fd: 3" ++
        " connect to: 1.0.0.127")) ∧
    (Callback.step ⟨true⟩ (fun _ => Except.error ResolveErr.gaierror) {} connectEvent =
      Except.error ResolveErr.gaierror) := by
  refine ⟨rfl, ?_, rfl⟩
  rfl

/-! ## Combined map lemmas and branch characterizations -/

theorem dlookup_dset_if {β : Type} (d : List (Nat × β)) (k' k : Nat) (v : β) :
    dlookup (dset d k' v) k = if k' = k then some v else dlookup d k := by
  by_cases h : k' = k
  · subst h; simp [dlookup_dset_self]
  · simp [h, dlookup_dset_ne d k' k v h]

theorem dlookup_derase_if {β : Type} (d : List (Nat × β)) (k' k : Nat) :
    dlookup (derase d k') k = if k' = k then none else dlookup d k := by
  by_cases h : k' = k
  · subst h; simp [dlookup_derase_self]
  · simp [h, dlookup_derase_ne d k' k h]

/-- The lines a user-function event flushes: the lines already buffered,
then (on a return) the summary lines, then the rendered function line. -/
def funcFlush (e : CallEvent) (p : Process) (depth : Nat) : List String :=
  (if e.depth.testBit 63 then p.data_buffer ++ summaryLines (e.pid >>> 32) p depth
   else p.data_buffer) ++
  [functionLine (e.pid >>> 32) e (if e.depth.testBit 63 then "<- " else "-> ") depth]

theorem syscallBranch_shape (args : Args) (resolve : String → Except ResolveErr String)
    (e : CallEvent) (depth : Nat) (st : EngineState) (dict0 : List (Nat × Process))
    (p : Process) (st1 : EngineState)
    (hok : syscallBranch args resolve e depth st dict0 p = Except.ok st1) :
    st1.out = st.out ∧ st1.exited = st.exited ∧
    ∃ q, st1.process_dict = dset dict0 e.pid q ∧
      q.total_lat = (syscallAccumulate e p).total_lat ∧
      q.net_write_volume = (syscallAccumulate e p).net_write_volume ∧
      q.net_read_volume = (syscallAccumulate e p).net_read_volume ∧
      q.disk_write_volume = (syscallAccumulate e p).disk_write_volume ∧
      q.disk_read_volume = (syscallAccumulate e p).disk_read_volume := by
  unfold syscallBranch at hok
  dsimp only at hok
  split_ifs at hok with h
  · simp only [Except.ok.injEq] at hok
    subst hok
    exact ⟨rfl, rfl, _, rfl, rfl, rfl, rfl, rfl, rfl⟩
  · cases hm : syscall_message resolve e with
    | error err => rw [hm] at hok; cases hok
    | ok msg =>
        rw [hm] at hok
        simp only [Except.ok.injEq] at hok
        subst hok
        exact ⟨rfl, rfl, _, rfl, rfl, rfl, rfl, rfl, rfl⟩

/-- The process record as stored back by the user-function branch: the
buffer was flushed, the totals were reset when the event is a return. -/
def funcProcessAfter (e : CallEvent) (p : Process) (depth : Nat) : Process :=
  { (if e.depth.testBit 63 then
      Process.reset { p with data_buffer := p.data_buffer ++ summaryLines (e.pid >>> 32) p depth }
    else p).add_in_buffer
      (functionLine (e.pid >>> 32) e (if e.depth.testBit 63 then "<- " else "-> ") depth)
    with data_buffer := [] }

theorem funcBranch_eq (e : CallEvent) (depth : Nat) (st : EngineState)
    (dict0 : List (Nat × Process)) (p : Process) :
    funcBranch e depth st dict0 p =
      if e.depth.testBit 63 = true ∧ e.method = "main" ∧ depth = 1 then
        { process_dict := derase (dset dict0 e.pid (funcProcessAfter e p depth)) e.pid
          out := st.out ++ [funcFlush e p depth, []]
          exited := st.exited || (derase (dset dict0 e.pid (funcProcessAfter e p depth)) e.pid).isEmpty }
      else
        { process_dict := dset dict0 e.pid (funcProcessAfter e p depth)
          out := st.out ++ [funcFlush e p depth]
          exited := st.exited } := by
  unfold funcBranch funcFlush funcProcessAfter
  by_cases hmain : e.depth.testBit 63 = true ∧ e.method = "main" ∧ depth = 1 <;>
    by_cases hret : e.depth.testBit 63 <;>
      simp_all [Process.add_in_buffer, Process.reset]

theorem step_eq_of_func (args : Args) (resolve : String → Except ResolveErr String)
    (st : EngineState) (e : CallEvent) (ht : ¬e.type = SYSCALL)
    (hd : maskDepth e.depth ≠ 0) :
    Callback.step args resolve st e = Except.ok (funcBranch e (maskDepth e.depth) st
      (dset st.process_dict e.pid ((dlookup st.process_dict e.pid).getD Process.init))
      ((dlookup st.process_dict e.pid).getD Process.init)) := by
  unfold Callback.step
  simp [hd, ht]

theorem step_eq_of_syscall (args : Args) (resolve : String → Except ResolveErr String)
    (st : EngineState) (e : CallEvent) (ht : e.type = SYSCALL)
    (hd : maskDepth e.depth ≠ 0) :
    Callback.step args resolve st e = syscallBranch args resolve e (maskDepth e.depth) st
      (dset st.process_dict e.pid ((dlookup st.process_dict e.pid).getD Process.init))
      ((dlookup st.process_dict e.pid).getD Process.init) := by
  unfold Callback.step
  simp [hd, ht]

theorem step_eq_of_depth_zero (args : Args) (resolve : String → Except ResolveErr String)
    (st : EngineState) (e : CallEvent) (hd : maskDepth e.depth = 0) :
    Callback.step args resolve st e = Except.ok st := by
  unfold Callback.step
  simp [hd]

/-- After a syscall event is processed, its process entry carries the
accumulated totals. -/
theorem step_syscall_updates (args : Args) (resolve : String → Except ResolveErr String)
    (st : EngineState) (e : CallEvent) (st1 : EngineState)
    (ht : e.type = SYSCALL) (hd : maskDepth e.depth ≠ 0)
    (hok : Callback.step args resolve st e = Except.ok st1) :
    st1.out = st.out ∧
    ∃ q, dlookup st1.process_dict e.pid = some q ∧
      q.total_lat = ((dlookup st.process_dict e.pid).getD Process.init).total_lat + e.lat ∧
      q.net_write_volume =
        (syscallAccumulate e ((dlookup st.process_dict e.pid).getD Process.init)).net_write_volume ∧
      q.net_read_volume =
        (syscallAccumulate e ((dlookup st.process_dict e.pid).getD Process.init)).net_read_volume ∧
      q.disk_write_volume =
        (syscallAccumulate e ((dlookup st.process_dict e.pid).getD Process.init)).disk_write_volume ∧
      q.disk_read_volume =
        (syscallAccumulate e ((dlookup st.process_dict e.pid).getD Process.init)).disk_read_volume := by
  rw [step_eq_of_syscall args resolve st e ht hd] at hok
  obtain ⟨hout, -, q, hdict, hq1, hq2, hq3, hq4, hq5⟩ :=
    syscallBranch_shape args resolve e (maskDepth e.depth) st _ _ st1 hok
  refine ⟨hout, q, ?_, ?_, hq2, hq3, hq4, hq5⟩
  · rw [hdict, dlookup_dset_self]
  · rw [hq1, syscallAccumulate_total_lat]

/-- A syscall event never alters the entry of a different process. -/
theorem step_syscall_other (args : Args) (resolve : String → Except ResolveErr String)
    (st : EngineState) (e : CallEvent) (st1 : EngineState) (k : Nat)
    (ht : e.type = SYSCALL) (hk : e.pid ≠ k)
    (hok : Callback.step args resolve st e = Except.ok st1) :
    dlookup st1.process_dict k = dlookup st.process_dict k := by
  by_cases hd : maskDepth e.depth = 0
  · rw [step_eq_of_depth_zero args resolve st e hd] at hok
    simp only [Except.ok.injEq] at hok
    subst hok
    rfl
  · rw [step_eq_of_syscall args resolve st e ht hd] at hok
    obtain ⟨-, -, q, hdict, -⟩ :=
      syscallBranch_shape args resolve e (maskDepth e.depth) st _ _ st1 hok
    rw [hdict, dlookup_dset_ne _ _ _ _ hk, dlookup_dset_ne _ _ _ _ hk]

/-- When the running syscall total is positive, the first summary line
on a function return reports it. -/
theorem summaryLines_head (pid32 : Nat) (p : Process) (depth : Nat)
    (h : 0 < p.total_lat) :
    (summaryLines pid32 p depth).head? = some (print_event pid32 (toString p.total_lat)
      (BLUE ++ "traced syscalls total latence" ++ ENDC) depth) := by
  unfold summaryLines
  simp [h]

/-! ## C5 -/

/-- C5: when a user-function exit event arrives whose masked depth is 1
and whose method is the entry-point name "main", the callback flushes
the buffer of that process (the buffered lines, the summary lines and
the return line, followed by the second, empty flush), removes the
record from the registry, and calls `exit()` exactly when the registry
became empty. -/
theorem c5_root_main_return (args : Args) (resolve : String → Except ResolveErr String)
    (st : EngineState) (e : CallEvent) (htype : e.type = 2)
    (hret : e.depth.testBit 63 = true) (hdepth : maskDepth e.depth = 1)
    (hmain : e.method = "main") :
    Callback.step args resolve st e = Except.ok
      { process_dict := derase st.process_dict e.pid
        out := st.out ++
          [((dlookup st.process_dict e.pid).getD Process.init).data_buffer ++
            summaryLines (e.pid >>> 32) ((dlookup st.process_dict e.pid).getD Process.init) 1 ++
            [functionLine (e.pid >>> 32) e "<- " 1], []]
        exited := st.exited || (derase st.process_dict e.pid).isEmpty } := by
  have ht : ¬e.type = SYSCALL := by rw [htype]; decide
  have hd1 : maskDepth e.depth ≠ 0 := by rw [hdepth]; exact one_ne_zero
  rw [step_eq_of_func args resolve st e ht hd1, funcBranch_eq, hdepth,
    if_pos ⟨hret, hmain, rfl⟩]
  simp [funcFlush, hret, derase_dset]

/-- A concrete root `main` return for process 5. -/
def mainRetEvent : CallEvent :=
  { pid := 5, depth := 2 ^ 63 + 1, type := 2, method := "main" }

/-- Witness for C5 at a concrete input: from the empty registry, a root
`main` return destroys the (lazily created) record and, the registry now
being empty, terminates the engine. -/
theorem c5_root_main_return_witness :
    Callback.step ⟨false⟩ herrResolver {} mainRetEvent = Except.ok
      { process_dict := derase ({} : EngineState).process_dict mainRetEvent.pid
        out := ({} : EngineState).out ++
          [((dlookup ({} : EngineState).process_dict mainRetEvent.pid).getD Process.init).data_buffer ++
            summaryLines (mainRetEvent.pid >>> 32)
              ((dlookup ({} : EngineState).process_dict mainRetEvent.pid).getD Process.init) 1 ++
            [functionLine (mainRetEvent.pid >>> 32) mainRetEvent "<- " 1], []]
        exited := ({} : EngineState).exited ||
          (derase ({} : EngineState).process_dict mainRetEvent.pid).isEmpty } :=
  c5_root_main_return ⟨false⟩ herrResolver {} mainRetEvent rfl (by decide) (by decide) rfl

/-! ## C3 -/

/-- C3: an exit notification whose matching entry was never observed is
handled best-effort.  The PHP return probe submits exactly one event
with zero latency; a syscall exit tracepoint with no parked timestamp
submits exactly one event with zero latency; the userspace renderer
shows the zero latency of a user-function line as the placeholder `-`;
and the callback never raises on a user-function event, so processing
continues. -/
theorem c3_unmatched_exit_best_effort :
    (∀ (st : BpfState) (c : PhpCall),
      dlookup st.start_func (callSiteId c) = none →
      (php_probe true st c).2 =
        [{ depth := ((dlookup st.entry c.pid).getD 0) ||| 2 ^ 63, pid := c.pid,
           lat := 0, type := 2 }]) ∧
    (∀ (st : BpfState) (c : SysFire),
      dlookup st.start c.pid = none →
      (sys_exit st c).2 =
        [{ depth := (dlookup st.entry c.pid).getD 0, pid := c.pid, lat := 0, type := 1 }]) ∧
    (∀ (pid32 : Nat) (e : CallEvent) (direction : String) (depth : Nat), e.lat = 0 →
      functionLine pid32 e direction depth =
        print_event pid32 "-" (direction ++ e.clazz ++ "." ++ e.method ++ " " ++
          UNDERLINE ++ "from " ++ e.file ++ ENDC) depth) ∧
    (∀ (args : Args) (resolve : String → Except ResolveErr String)
      (st : EngineState) (e : CallEvent), ¬e.type = SYSCALL →
      (Callback.step args resolve st e).toOption.isSome = true) := by
  refine ⟨?_, ?_, ?_, ?_⟩
  · intro st c hnone
    unfold php_probe
    simp [hnone, Nat.testBit_or, Nat.testBit_two_pow_self,
      show Nat.testBit 9223372036854775808 63 = true by decide]
  · intro st c hnone
    unfold sys_exit
    simp [hnone]
  · intro pid32 e direction depth h
    unfold functionLine
    simp [h]
  · intro args resolve st e ht
    by_cases hd : maskDepth e.depth = 0
    · rw [step_eq_of_depth_zero args resolve st e hd]
      rfl
    · rw [step_eq_of_func args resolve st e ht hd]
      rfl

/-- Witness for C3 at a concrete input: a return for a call-site whose
entry was never seen, from the empty correlation state. -/
theorem c3_unmatched_exit_best_effort_witness :
    dlookup ({} : BpfState).start_func (callSiteId ⟨7, 1, 2, 3, 100⟩) = none ∧
    (php_probe true {} ⟨7, 1, 2, 3, 100⟩).2 =
      [{ depth := ((dlookup ({} : BpfState).entry 7).getD 0) ||| 2 ^ 63, pid := 7,
         lat := 0, type := 2 }] :=
  ⟨rfl, c3_unmatched_exit_best_effort.1 {} ⟨7, 1, 2, 3, 100⟩ rfl⟩

/-! ## C7 -/

/-- C7: for a matched entry/exit pair the latency computed at exit is
the exit clock reading minus the parked entry timestamp, for both the
user-function protocol (keyed by call-site identity) and the syscall
protocol (keyed by thread identity); the subtraction is exact whenever
the clock did not wrap. -/
theorem c7_latency_equals_clock_difference :
    (∀ (st : BpfState) (c : PhpCall) (t0 : Nat),
      dlookup st.start_func (callSiteId c) = some t0 → t0 ≤ c.now → c.now < U64 →
      (php_probe true st c).2.map CallT.lat = [c.now - t0]) ∧
    (∀ (st : BpfState) (c : SysFire) (t0 : Nat),
      dlookup st.start c.pid = some t0 → t0 ≤ c.now → c.now < U64 →
      (sys_exit st c).2.map CallT.lat = [c.now - t0]) := by
  constructor
  · intro st c t0 hsome hle hlt
    unfold php_probe
    simp [hsome, Nat.testBit_or, Nat.testBit_two_pow_self,
      show Nat.testBit 9223372036854775808 63 = true by decide,
      u64sub_eq c.now t0 hle hlt]
  · intro st c t0 hsome hle hlt
    unfold sys_exit
    simp [hsome, u64sub_eq c.now t0 hle hlt]

/-- Witness for C7 at a concrete input: entry parked at 100 ns, exit at
150 ns, reported latency 50 ns. -/
theorem c7_latency_equals_clock_difference_witness :
    dlookup ({ start_func := [(6, 100)] } : BpfState).start_func
      (callSiteId ⟨7, 1, 2, 3, 150⟩) = some 100 ∧
    (php_probe true { start_func := [(6, 100)] } ⟨7, 1, 2, 3, 150⟩).2.map CallT.lat =
      [150 - 100] :=
  ⟨rfl, c7_latency_equals_clock_difference.1 { start_func := [(6, 100)] }
    ⟨7, 1, 2, 3, 150⟩ 100 rfl (by decide) (by decide)⟩

/-! ## C4 -/

/-- Over a stream of syscall events of one process, the running total
accumulates the event latencies, whatever the detail flag, because the
accumulation precedes the flag gate. -/
theorem run_syscalls_total_lat (args : Args) (resolve : String → Except ResolveErr String)
    (k : Nat) (es : List CallEvent) :
    ∀ (st : EngineState) (p : Process) (st1 : EngineState),
      dlookup st.process_dict k = some p →
      (∀ e ∈ es, e.type = SYSCALL ∧ e.pid = k ∧ maskDepth e.depth ≠ 0) →
      Callback.run args resolve st es = Except.ok st1 →
      ∃ q, dlookup st1.process_dict k = some q ∧
        q.total_lat = p.total_lat + (es.map CallEvent.lat).sum := by
  induction es with
  | nil =>
      intro st p st1 hp _ hrun
      simp only [Callback.run, Except.ok.injEq] at hrun
      subst hrun
      exact ⟨p, hp, by simp⟩
  | cons e es ih =>
      intro st p st1 hp hes hrun
      obtain ⟨ht, hpid, hd⟩ := hes e (List.mem_cons_self e es)
      unfold Callback.run at hrun
      cases hstep : Callback.step args resolve st e with
      | error err => rw [hstep] at hrun; cases hrun
      | ok stm =>
          rw [hstep] at hrun
          obtain ⟨-, q, hq, hqt, -, -, -, -⟩ :=
            step_syscall_updates args resolve st e stm ht hd hstep
          rw [hpid] at hq hqt
          rw [hp] at hqt
          simp only [Option.getD_some] at hqt
          obtain ⟨r, hr, hrt⟩ := ih stm q st1 hq
            (fun x hx => hes x (List.mem_cons_of_mem e hx)) hrun
          refine ⟨r, hr, ?_⟩
          rw [hrt, hqt]
          simp [Nat.add_assoc]

/-- Entry of an outer function `f` for process 1. -/
def c4fEntry : CallEvent := { pid := 1, depth := 1, type := 2, method := "f" }

/-- A 3 ns syscall issued inside `f`, before `g` is entered. -/
def c4sysOuter : CallEvent := { pid := 1, depth := 2, type := 1, lat := 3, method := "read" }

/-- Entry of the nested function `g`. -/
def c4gEntry : CallEvent := { pid := 1, depth := 2, type := 2, method := "g" }

/-- The only syscall strictly between the entry of `g` and its return:
4 ns. -/
def c4sysInner : CallEvent := { pid := 1, depth := 3, type := 1, lat := 4, method := "read" }

/-- The return of the nested function `g`. -/
def c4gRet : CallEvent := { pid := 1, depth := 2 ^ 63 + 2, type := 2, method := "g" }

/-- C4 counterexample: the totals accumulate since the last function
return (the last reset), not since the enclosing function entry.  After
f-entry, a 3 ns syscall, g-entry and a 4 ns syscall, the running total
is 7, and the summary line reported at the return of `g` (the head of
the last flush) shows 7, not the 4 ns summed over the syscalls strictly
between the entry of `g` and its return, so the claim fails at this
input. -/
theorem c4_nested_entry_counterexample :
    ((Callback.run ⟨false⟩ herrResolver {}
        [c4fEntry, c4sysOuter, c4gEntry, c4sysInner]).toOption.map
      (fun s => (dlookup s.process_dict 1).map Process.total_lat) = some (some 7)) ∧
    ((Callback.run ⟨false⟩ herrResolver {}
        [c4fEntry, c4sysOuter, c4gEntry, c4sysInner, c4gRet]).toOption.map
      (fun s => (s.out.map List.head?).getLast?) =
      some (some (some (print_event 0 (toString 7)
        (BLUE ++ "traced syscalls total latence" ++ ENDC) 2)))) ∧
    (([c4sysInner].map CallEvent.lat).sum = 4) ∧
    (print_event 0 (toString 7) (BLUE ++ "traced syscalls total latence" ++ ENDC) 2 ≠
      print_event 0 (toString 4) (BLUE ++ "traced syscalls total latence" ++ ENDC) 2) := by
  refine ⟨rfl, rfl, rfl, by decide⟩

/-- C4 amended: for a stream of syscall events of one process, the
running total after the stream equals the total at the start of the
stream plus the sum of the individual syscall latencies — the totals
accumulate since the last reset (the previous function return), not
strictly since the enclosing function entry — and the value is
identical with the syscall-detail flag enabled and disabled, because
accumulation precedes the detail-printing gate: the first summary line
buffered at the next return shows exactly that value. -/
theorem c4_totals_since_last_reset (resolve : String → Except ResolveErr String)
    (st : EngineState) (k : Nat) (p : Process) (es : List CallEvent)
    (st1 st2 : EngineState)
    (hp : dlookup st.process_dict k = some p)
    (hes : ∀ e ∈ es, e.type = SYSCALL ∧ e.pid = k ∧ maskDepth e.depth ≠ 0)
    (h1 : Callback.run ⟨true⟩ resolve st es = Except.ok st1)
    (h2 : Callback.run ⟨false⟩ resolve st es = Except.ok st2) :
    ((dlookup st1.process_dict k).map Process.total_lat =
      some (p.total_lat + (es.map CallEvent.lat).sum)) ∧
    ((dlookup st2.process_dict k).map Process.total_lat =
      some (p.total_lat + (es.map CallEvent.lat).sum)) ∧
    (0 < p.total_lat + (es.map CallEvent.lat).sum → ∀ d,
      (dlookup st1.process_dict k).map (fun q => (summaryLines (k >>> 32) q d).head?) =
        some (some (print_event (k >>> 32) (toString (p.total_lat + (es.map CallEvent.lat).sum))
          (BLUE ++ "traced syscalls total latence" ++ ENDC) d)) ∧
      (dlookup st2.process_dict k).map (fun q => (summaryLines (k >>> 32) q d).head?) =
        some (some (print_event (k >>> 32) (toString (p.total_lat + (es.map CallEvent.lat).sum))
          (BLUE ++ "traced syscalls total latence" ++ ENDC) d))) := by
  obtain ⟨q1, hq1, ht1⟩ := run_syscalls_total_lat ⟨true⟩ resolve k es st p st1 hp hes h1
  obtain ⟨q2, hq2, ht2⟩ := run_syscalls_total_lat ⟨false⟩ resolve k es st p st2 hp hes h2
  refine ⟨by rw [hq1]; simp [ht1], by rw [hq2]; simp [ht2], ?_⟩
  intro hpos d
  constructor
  · rw [hq1]
    have hh := summaryLines_head (k >>> 32) q1 d (by rw [ht1]; exact hpos)
    simp [hh, ht1]
  · rw [hq2]
    have hh := summaryLines_head (k >>> 32) q2 d (by rw [ht2]; exact hpos)
    simp [hh, ht2]

/-- Two concrete syscall events (3 ns and 4 ns) for process 1. -/
def c4Events : List CallEvent :=
  [{ pid := 1, depth := 1, type := 1, lat := 3 },
   { pid := 1, depth := 1, type := 1, lat := 4 }]

/-- Witness for the amended C4 at a concrete input: a process whose
total already holds 5 ns from before gains the 3 + 4 ns of the stream,
reaching 12 under both flags — the total carries over from before the
stream rather than restarting at the enclosing entry. -/
theorem c4_totals_since_last_reset_witness :
    (dlookup ({ process_dict := [(1, { total_lat := 5 })] } : EngineState).process_dict 1 =
      some { total_lat := 5 }) ∧
    (Callback.run ⟨true⟩ herrResolver { process_dict := [(1, { total_lat := 5 })] } c4Events =
      Except.ok ((Callback.run ⟨true⟩ herrResolver
        { process_dict := [(1, { total_lat := 5 })] } c4Events).toOption.getD {})) ∧
    (Callback.run ⟨false⟩ herrResolver { process_dict := [(1, { total_lat := 5 })] } c4Events =
      Except.ok ((Callback.run ⟨false⟩ herrResolver
        { process_dict := [(1, { total_lat := 5 })] } c4Events).toOption.getD {})) ∧
    ((dlookup ((Callback.run ⟨true⟩ herrResolver
        { process_dict := [(1, { total_lat := 5 })] } c4Events).toOption.getD {}).process_dict 1).map
      Process.total_lat =
      some (({ total_lat := 5 } : Process).total_lat + (c4Events.map CallEvent.lat).sum)) := by
  refine ⟨rfl, rfl, rfl, ?_⟩
  exact (c4_totals_since_last_reset herrResolver
    { process_dict := [(1, { total_lat := 5 })] } 1 { total_lat := 5 } c4Events _ _
    rfl (by decide) rfl rfl).1

/-! ## C6 -/

/-- C6 counterexample: a `ProcessState` can be created twice for the
same processId.  With two traced processes, process 1 is created by its
first event, destroyed by its root `main` return (the registry still
holds process 2, so the engine does not terminate), and then created
again by a later event for process 1 — a second creation, which the
claim rules out for every event sequence. -/
theorem c6_second_creation_counterexample :
    ((Callback.run ⟨false⟩ herrResolver {}
        [{ pid := 1, depth := 1, type := 2, method := "main" }]).toOption.map
      (fun s => (dlookup s.process_dict 1).isSome) = some true) ∧
    ((Callback.run ⟨false⟩ herrResolver {}
        [{ pid := 1, depth := 1, type := 2, method := "main" },
         { pid := 2, depth := 1, type := 2, method := "main" },
         { pid := 1, depth := 2 ^ 63 + 1, type := 2, method := "main" }]).toOption.map
      (fun s => ((dlookup s.process_dict 1).isSome, s.exited)) = some (false, false)) ∧
    ((Callback.run ⟨false⟩ herrResolver {}
        [{ pid := 1, depth := 1, type := 2, method := "main" },
         { pid := 2, depth := 1, type := 2, method := "main" },
         { pid := 1, depth := 2 ^ 63 + 1, type := 2, method := "main" },
         { pid := 1, depth := 1, type := 2, method := "main" }]).toOption.map
      (fun s => (dlookup s.process_dict 1).isSome) = some true) :=
  ⟨rfl, rfl, rfl⟩

/-- C6 amended: one callback step destroys the record of a processId
only when that event is a user-function return at masked depth 1 with
method name `main` for that very processId, and creates a record only
for the processId of an event with nonzero masked depth; both can recur
for the same processId once the record was destroyed while other
processes stayed alive. -/
theorem c6_lifecycle_characterization :
    (∀ (args : Args) (resolve : String → Except ResolveErr String)
        (st : EngineState) (e : CallEvent) (st1 : EngineState) (k : Nat),
      Callback.step args resolve st e = Except.ok st1 →
      (dlookup st.process_dict k).isSome = true →
      dlookup st1.process_dict k = none →
      k = e.pid ∧ ¬e.type = SYSCALL ∧ e.depth.testBit 63 = true ∧
        maskDepth e.depth = 1 ∧ e.method = "main") ∧
    (∀ (args : Args) (resolve : String → Except ResolveErr String)
        (st : EngineState) (e : CallEvent) (st1 : EngineState) (k : Nat),
      Callback.step args resolve st e = Except.ok st1 →
      dlookup st.process_dict k = none →
      (dlookup st1.process_dict k).isSome = true →
      k = e.pid ∧ maskDepth e.depth ≠ 0) := by
  constructor
  · intro args resolve st e st1 k hok hsome hnone
    by_cases hd : maskDepth e.depth = 0
    · rw [step_eq_of_depth_zero args resolve st e hd] at hok
      simp only [Except.ok.injEq] at hok
      subst hok
      rw [hnone] at hsome
      cases hsome
    · by_cases ht : e.type = SYSCALL
      · rw [step_eq_of_syscall args resolve st e ht hd] at hok
        obtain ⟨-, -, q, hdict, -⟩ :=
          syscallBranch_shape args resolve e (maskDepth e.depth) st _ _ st1 hok
        by_cases hk : e.pid = k
        · subst hk
          rw [hdict, dlookup_dset_self] at hnone
          cases hnone
        · rw [hdict, dlookup_dset_ne _ _ _ _ hk, dlookup_dset_ne _ _ _ _ hk] at hnone
          rw [hnone] at hsome
          cases hsome
      · rw [step_eq_of_func args resolve st e ht hd] at hok
        simp only [Except.ok.injEq] at hok
        subst hok
        rw [funcBranch_eq] at hnone
        by_cases hmain : e.depth.testBit 63 = true ∧ e.method = "main" ∧ maskDepth e.depth = 1
        · by_cases hk : e.pid = k
          · subst hk
            exact ⟨rfl, ht, hmain.1, hmain.2.2, hmain.2.1⟩
          · rw [if_pos hmain, dlookup_derase_ne _ _ _ hk, dlookup_dset_ne _ _ _ _ hk,
              dlookup_dset_ne _ _ _ _ hk] at hnone
            rw [hnone] at hsome
            cases hsome
        · rw [if_neg hmain] at hnone
          by_cases hk : e.pid = k
          · subst hk
            rw [dlookup_dset_self] at hnone
            cases hnone
          · rw [dlookup_dset_ne _ _ _ _ hk, dlookup_dset_ne _ _ _ _ hk] at hnone
            rw [hnone] at hsome
            cases hsome
  · intro args resolve st e st1 k hok hnone hsome
    by_cases hd : maskDepth e.depth = 0
    · rw [step_eq_of_depth_zero args resolve st e hd] at hok
      simp only [Except.ok.injEq] at hok
      subst hok
      rw [hnone] at hsome
      cases hsome
    · refine ⟨?_, hd⟩
      by_contra hk0
      have hk : e.pid ≠ k := fun h => hk0 h.symm
      by_cases ht : e.type = SYSCALL
      · rw [step_eq_of_syscall args resolve st e ht hd] at hok
        obtain ⟨-, -, q, hdict, -⟩ :=
          syscallBranch_shape args resolve e (maskDepth e.depth) st _ _ st1 hok
        rw [hdict, dlookup_dset_ne _ _ _ _ hk, dlookup_dset_ne _ _ _ _ hk] at hsome
        rw [hnone] at hsome
        cases hsome
      · rw [step_eq_of_func args resolve st e ht hd] at hok
        simp only [Except.ok.injEq] at hok
        subst hok
        rw [funcBranch_eq] at hsome
        by_cases hmain : e.depth.testBit 63 = true ∧ e.method = "main" ∧ maskDepth e.depth = 1
        · rw [if_pos hmain, dlookup_derase_ne _ _ _ hk, dlookup_dset_ne _ _ _ _ hk,
            dlookup_dset_ne _ _ _ _ hk] at hsome
          rw [hnone] at hsome
          cases hsome
        · rw [if_neg hmain, dlookup_dset_ne _ _ _ _ hk, dlookup_dset_ne _ _ _ _ hk] at hsome
          rw [hnone] at hsome
          cases hsome

/-- Witness for the amended C6 at a concrete input: the only way one
step removes the record of process 5 is the root `main` return of
process 5 itself. -/
theorem c6_lifecycle_characterization_witness :
    (Callback.step ⟨false⟩ herrResolver { process_dict := [(5, Process.init)] } mainRetEvent =
      Except.ok ((Callback.step ⟨false⟩ herrResolver { process_dict := [(5, Process.init)] }
        mainRetEvent).toOption.getD {})) ∧
    ((dlookup ({ process_dict := [(5, Process.init)] } : EngineState).process_dict 5).isSome
      = true) ∧
    (dlookup ((Callback.step ⟨false⟩ herrResolver { process_dict := [(5, Process.init)] }
      mainRetEvent).toOption.getD {}).process_dict 5 = none) ∧
    ((5 : Nat) = mainRetEvent.pid ∧ ¬mainRetEvent.type = SYSCALL ∧
      mainRetEvent.depth.testBit 63 = true ∧ maskDepth mainRetEvent.depth = 1 ∧
      mainRetEvent.method = "main") := by
  refine ⟨rfl, rfl, by decide, ?_⟩
  exact c6_lifecycle_characterization.1 ⟨false⟩ herrResolver
    { process_dict := [(5, Process.init)] } mainRetEvent
    ((Callback.step ⟨false⟩ herrResolver { process_dict := [(5, Process.init)] }
      mainRetEvent).toOption.getD {}) 5 rfl rfl (by decide)

/-! ## C9 -/

/-- C9 counterexample: with the syscall-detail flag enabled, a syscall
event buffers its detail line (buffer length 1 afterwards) but performs
no flush (the printed output stays empty), where the claim says the
buffer is emitted and cleared whenever the flag is enabled. -/
theorem c9_syscall_no_flush_counterexample :
    (Callback.step ⟨true⟩ herrResolver {}
        { pid := 1, depth := 1, type := 1, lat := 5, method := "read" }).toOption.map
      (fun s => (s.out, (dlookup s.process_dict 1).map (fun p => p.data_buffer.length))) =
    some ([], some 1) := rfl

/-- C9 amended: the buffer is emitted and cleared after every
user-function event (once, or twice on the root `main` return whose
second flush is empty), and a syscall event never causes a flush,
whatever the value of the syscall-detail flag — with the flag enabled
the detail line is only buffered, to be emitted at the next
user-function flush. -/
theorem c9_flush_granularity :
    (∀ (args : Args) (resolve : String → Except ResolveErr String)
        (st : EngineState) (e : CallEvent) (st1 : EngineState),
      e.type = SYSCALL →
      Callback.step args resolve st e = Except.ok st1 → st1.out = st.out) ∧
    (∀ (args : Args) (resolve : String → Except ResolveErr String)
        (st : EngineState) (e : CallEvent) (st1 : EngineState),
      ¬e.type = SYSCALL → maskDepth e.depth ≠ 0 →
      Callback.step args resolve st e = Except.ok st1 →
      (st1.out = st.out ++ [funcFlush e ((dlookup st.process_dict e.pid).getD Process.init)
          (maskDepth e.depth)] ∨
       st1.out = st.out ++ [funcFlush e ((dlookup st.process_dict e.pid).getD Process.init)
          (maskDepth e.depth), []]) ∧
      ∀ q, dlookup st1.process_dict e.pid = some q → q.data_buffer = []) := by
  constructor
  · intro args resolve st e st1 ht hok
    by_cases hd : maskDepth e.depth = 0
    · rw [step_eq_of_depth_zero args resolve st e hd] at hok
      simp only [Except.ok.injEq] at hok
      subst hok
      rfl
    · rw [step_eq_of_syscall args resolve st e ht hd] at hok
      exact (syscallBranch_shape args resolve e (maskDepth e.depth) st _ _ st1 hok).1
  · intro args resolve st e st1 ht hd hok
    rw [step_eq_of_func args resolve st e ht hd, funcBranch_eq] at hok
    simp only [Except.ok.injEq] at hok
    by_cases hmain : e.depth.testBit 63 = true ∧ e.method = "main" ∧ maskDepth e.depth = 1
    · rw [if_pos hmain] at hok
      subst hok
      refine ⟨Or.inr (by simp), ?_⟩
      intro q hq
      rw [dlookup_derase_self] at hq
      cases hq
    · rw [if_neg hmain] at hok
      subst hok
      refine ⟨Or.inl rfl, ?_⟩
      intro q hq
      rw [dlookup_dset_self] at hq
      simp only [Option.some.injEq] at hq
      subst hq
      rfl

/-- Witness for the amended C9 at a concrete input: a user-function
return flushes exactly the buffered lines of its process. -/
theorem c9_flush_granularity_witness :
    (¬fooRetEvent.type = SYSCALL) ∧ (maskDepth fooRetEvent.depth ≠ 0) ∧
    (Callback.step ⟨false⟩ herrResolver {} fooRetEvent =
      Except.ok ((Callback.step ⟨false⟩ herrResolver {} fooRetEvent).toOption.getD {})) ∧
    (((Callback.step ⟨false⟩ herrResolver {} fooRetEvent).toOption.getD {}).out =
      ({} : EngineState).out ++ [funcFlush fooRetEvent
        ((dlookup ({} : EngineState).process_dict fooRetEvent.pid).getD Process.init)
        (maskDepth fooRetEvent.depth)] ∨
     ((Callback.step ⟨false⟩ herrResolver {} fooRetEvent).toOption.getD {}).out =
      ({} : EngineState).out ++ [funcFlush fooRetEvent
        ((dlookup ({} : EngineState).process_dict fooRetEvent.pid).getD Process.init)
        (maskDepth fooRetEvent.depth), []]) := by
  refine ⟨by decide, by decide, rfl, ?_⟩
  exact (c9_flush_granularity.2 ⟨false⟩ herrResolver {} fooRetEvent
    ((Callback.step ⟨false⟩ herrResolver {} fooRetEvent).toOption.getD {})
    (by decide) (by decide) rfl).1

/-! ## C10 -/

theorem syscallAccumulate_net_both (e : CallEvent) (p : Process)
    (hnet : e.fd_type = NET) (hw : 0 < e.bytes_write) :
    (syscallAccumulate e p).net_write_volume = p.net_write_volume + e.bytes_write ∧
    (syscallAccumulate e p).net_read_volume = p.net_read_volume := by
  unfold syscallAccumulate
  simp [hnet, hw]

theorem syscallAccumulate_disk_both (e : CallEvent) (p : Process)
    (hdisk : e.fd_type = DISK) (hw : 0 < e.bytes_write) :
    (syscallAccumulate e p).disk_write_volume = p.disk_write_volume + e.bytes_write ∧
    (syscallAccumulate e p).disk_read_volume = p.disk_read_volume := by
  have hne : ¬e.fd_type = NET := by rw [hdisk]; decide
  unfold syscallAccumulate
  simp [hne, hdisk, hw, show ¬DISK = NET by decide]

/-- C10: when a syscall event classified network (or disk) carries both
a positive written byte count and a positive read byte count, only the
written bytes are accumulated — the write branch of the `if`/`elif`
pair takes precedence and the read volume is left unchanged. -/
theorem c10_write_branch_precedence (args : Args)
    (resolve : String → Except ResolveErr String) (st : EngineState)
    (e : CallEvent) (st1 : EngineState) (p : Process)
    (ht : e.type = SYSCALL) (hd : maskDepth e.depth ≠ 0)
    (hp : dlookup st.process_dict e.pid = some p)
    (hw : 0 < e.bytes_write) (hr : 0 < e.bytes_read)
    (hok : Callback.step args resolve st e = Except.ok st1) :
    (e.fd_type = NET →
      (dlookup st1.process_dict e.pid).map Process.net_write_volume =
        some (p.net_write_volume + e.bytes_write) ∧
      (dlookup st1.process_dict e.pid).map Process.net_read_volume =
        some p.net_read_volume) ∧
    (e.fd_type = DISK →
      (dlookup st1.process_dict e.pid).map Process.disk_write_volume =
        some (p.disk_write_volume + e.bytes_write) ∧
      (dlookup st1.process_dict e.pid).map Process.disk_read_volume =
        some p.disk_read_volume) := by
  obtain ⟨-, q, hq, -, h2, h3, h4, h5⟩ :=
    step_syscall_updates args resolve st e st1 ht hd hok
  rw [hp] at h2 h3 h4 h5
  simp only [Option.getD_some] at h2 h3 h4 h5
  constructor
  · intro hnet
    obtain ⟨ha, hb⟩ := syscallAccumulate_net_both e p hnet hw
    rw [hq]
    simp [h2, h3, ha, hb]
  · intro hdisk
    obtain ⟨ha, hb⟩ := syscallAccumulate_disk_both e p hdisk hw
    rw [hq]
    simp [h4, h5, ha, hb]

/-- A network syscall event that reports both written and read bytes. -/
def bothBytesEvent : CallEvent :=
  { pid := 1, depth := 1, type := 1, fd_type := 4, lat := 2,
    bytes_write := 7, bytes_read := 9, method := "sendto" }

/-- Witness for C10 at a concrete input: 7 bytes written and 9 bytes
read on a network descriptor add 7 to the write volume and nothing to
the read volume. -/
theorem c10_write_branch_precedence_witness :
    (dlookup ({ process_dict := [(1, Process.init)] } : EngineState).process_dict
      bothBytesEvent.pid = some Process.init) ∧
    (Callback.step ⟨false⟩ herrResolver { process_dict := [(1, Process.init)] }
      bothBytesEvent = Except.ok ((Callback.step ⟨false⟩ herrResolver
        { process_dict := [(1, Process.init)] } bothBytesEvent).toOption.getD {})) ∧
    (bothBytesEvent.fd_type = NET →
      (dlookup ((Callback.step ⟨false⟩ herrResolver { process_dict := [(1, Process.init)] }
          bothBytesEvent).toOption.getD {}).process_dict bothBytesEvent.pid).map
        Process.net_write_volume =
          some (Process.init.net_write_volume + bothBytesEvent.bytes_write) ∧
      (dlookup ((Callback.step ⟨false⟩ herrResolver { process_dict := [(1, Process.init)] }
          bothBytesEvent).toOption.getD {}).process_dict bothBytesEvent.pid).map
        Process.net_read_volume = some Process.init.net_read_volume) := by
  refine ⟨rfl, rfl, ?_⟩
  exact (c10_write_branch_precedence ⟨false⟩ herrResolver
    { process_dict := [(1, Process.init)] } bothBytesEvent
    ((Callback.step ⟨false⟩ herrResolver { process_dict := [(1, Process.init)] }
      bothBytesEvent).toOption.getD {}) Process.init rfl (by decide) rfl
    (by decide) (by decide) rfl).1
